import Mathlib

/-!
Verification development for the driftpaper desktop-wallpaper application
(`flux-desktop/src/main.rs`).

The pure algorithms and the render-loop state transitions of the program are
shallowly embedded below.  Rust `f32`/`f64` arithmetic is modelled by exact
rationals (`ℚ`); `u32` values by `ℕ`.  Rust's stable `sort_by` is modelled by
`List.insertionSort`, which is likewise a stable sort, so tie-breaking
behaviour coincides.
-/

namespace Driftpaper

/-! ### Discrete-option-to-parameter mapping tables (main.rs lines 127-330) -/

/-- Source `density_to_grid_spacing` (main.rs 127-134): convert density setting to
grid spacing; unknown values map to the Normal default 15. -/
def density_to_grid_spacing (density : ℕ) : ℕ :=
  match density with
  | 0 => 25
  | 1 => 15
  | 2 => 10
  | _ => 15

/-- The `ColorPreset` enum of the renderer's settings (referenced in `scheme_to_color_mode`). -/
inductive ColorPreset
  | Original
  | Plasma
  | Poolside
  | SpaceGrey
deriving DecidableEq

/-- The `ColorMode` of the renderer's settings. -/
inductive ColorMode
  | Preset (p : ColorPreset)
deriving DecidableEq

/-- Source `scheme_to_color_mode` (main.rs 137-148); scheme 4 (Custom Image) uses
Original as a placeholder, the custom wheel being injected separately. -/
def scheme_to_color_mode (scheme : ℕ) : ColorMode :=
  match scheme with
  | 0 => ColorMode.Preset ColorPreset.Original
  | 1 => ColorMode.Preset ColorPreset.Plasma
  | 2 => ColorMode.Preset ColorPreset.Poolside
  | 3 => ColorMode.Preset ColorPreset.SpaceGrey
  | 4 => ColorMode.Preset ColorPreset.Original
  | _ => ColorMode.Preset ColorPreset.Original

/-- Source `noise_strength_to_multiplier` (main.rs 280-288). -/
def noise_strength_to_multiplier (strength : ℕ) : ℚ :=
  match strength with
  | 0 => 3/20
  | 1 => 9/20
  | 2 => 3/4
  | 3 => 1
  | _ => 9/20

/-- Source `line_length_to_value` (main.rs 291-299). -/
def line_length_to_value (length : ℕ) : ℚ :=
  match length with
  | 0 => 63
  | 1 => 142
  | 2 => 220
  | 3 => 315
  | _ => 142

/-- Source `line_width_to_value` (main.rs 302-309). -/
def line_width_to_value (width : ℕ) : ℚ :=
  match width with
  | 0 => 4
  | 1 => 9
  | 2 => 16
  | _ => 9

/-- Source `view_scale_to_value` (main.rs 312-319). -/
def view_scale_to_value (scale : ℕ) : ℚ :=
  match scale with
  | 0 => 1
  | 1 => 8/5
  | 2 => 11/5
  | _ => 8/5

/-- Source `brightness_to_multiplier` (main.rs 322-330). -/
def brightness_to_multiplier (brightness : ℕ) : ℚ :=
  match brightness with
  | 0 => 1/2
  | 1 => 1
  | 2 => 2
  | 3 => 7/2
  | _ => 1

/-- Modelled from the spec: the second configuration profile (the
near-duplicate entry point of the repository that is not present under the
given sources) maps density index 1 ("Normal") to grid spacing 22. -/
def profile2_normal_grid_spacing : ℕ := 22

/-! ### Palette extraction (main.rs lines 150-277)

`extract_colors_from_image` decodes and downscales the image, then runs a
pure pipeline over the retained RGB pixels.  Decoding/downscaling is outside
the model; the embedding takes the list of 8-bit RGB pixels that the Rust
code iterates over and mirrors every arithmetic step in exact rationals. -/

/-- Truncation toward zero on rationals, matching Rust's `as`-style and `%`
semantics for floats. -/
def ratTrunc (x : ℚ) : ℤ :=
  if 0 ≤ x then ⌊x⌋ else ⌈x⌉

/-- Rust's float remainder `x % y` (sign of the dividend, truncated division). -/
def qmodTrunc (x y : ℚ) : ℚ :=
  x - y * ratTrunc (x / y)

/-- The lightness/saturation filter of the pixel loop (main.rs 200-202):
a pixel is discarded when `l < 0.08 || l > 0.92 || delta < 0.02`. -/
def pixelFiltered (p : ℕ × ℕ × ℕ) : Prop :=
  let r : ℚ := p.1 / 255
  let g : ℚ := p.2.1 / 255
  let b : ℚ := p.2.2 / 255
  let mx := max (max r g) b
  let mn := min (min r g) b
  let delta := mx - mn
  let l := (mx + mn) / 2
  l < 2/25 ∨ 23/25 < l ∨ delta < 1/50

instance : DecidablePred pixelFiltered := fun p => by
  unfold pixelFiltered
  exact inferInstance

/-- Per-pixel HSL conversion and filter (main.rs 190-220): `none` when the
pixel is discarded by the lightness/saturation filter, otherwise the (h, s, l)
triple with `h` in degrees `[0, 360)` and `s`, `l` in `[0, 1]`. -/
def pixelHSL (p : ℕ × ℕ × ℕ) : Option (ℚ × ℚ × ℚ) :=
  let r : ℚ := p.1 / 255
  let g : ℚ := p.2.1 / 255
  let b : ℚ := p.2.2 / 255
  let mx := max (max r g) b
  let mn := min (min r g) b
  let delta := mx - mn
  let l := (mx + mn) / 2
  if l < 2/25 ∨ 23/25 < l ∨ delta < 1/50 then
    none
  else
    let s := if l < 1/2 then delta / (mx + mn) else delta / (2 - mx - mn)
    let h0 :=
      if delta = 0 then 0
      else if mx = r then 60 * qmodTrunc ((g - b) / delta) 6
      else if mx = g then 60 * ((b - r) / delta + 2)
      else 60 * ((r - g) / delta + 4)
    let h := if h0 < 0 then h0 + 360 else h0
    some (h, s, l)

/-- Source `HueBucket` (main.rs 180-185): per-bin running sums and pixel count. -/
structure HueBucket where
  h_sum : ℚ
  s_sum : ℚ
  l_sum : ℚ
  count : ℕ
deriving DecidableEq

/-- The twelve initially empty hue buckets (main.rs 186-188). -/
def emptyBuckets : Fin 12 → HueBucket := fun _ => ⟨0, 0, 0, 0⟩

/-- Source `bucket_idx = ((h / 30.0) as usize).min(11)` (main.rs 222); the `usize`
cast truncates toward zero and saturates at 0 for negative values, which is
`Int.toNat ∘ Int.floor` for the values produced here. -/
def bucketIndex (h : ℚ) : Fin 12 :=
  ⟨min (⌊h / 30⌋).toNat 11, by omega⟩

/-- One iteration of the pixel loop (main.rs 190-227): skip filtered pixels,
otherwise accumulate h, s, l and the count into the pixel's hue bucket. -/
def addPixel (buckets : Fin 12 → HueBucket) (p : ℕ × ℕ × ℕ) : Fin 12 → HueBucket :=
  match pixelHSL p with
  | none => buckets
  | some c =>
    let i := bucketIndex c.1
    fun j =>
      if j = i then
        ⟨(buckets i).h_sum + c.1, (buckets i).s_sum + c.2.1,
         (buckets i).l_sum + c.2.2, (buckets i).count + 1⟩
      else buckets j

/-- The whole pixel loop (main.rs 190-227). -/
def fillBuckets (pixels : List (ℕ × ℕ × ℕ)) : Fin 12 → HueBucket :=
  pixels.foldl addPixel emptyBuckets

/-- A palette candidate: averaged hue, saturation, lightness plus the bin's
pixel count (the `(f32, f32, f32, u64)` tuples of main.rs 230). -/
structure Cand where
  h : ℚ
  s : ℚ
  l : ℚ
  count : ℕ
deriving DecidableEq

/-- Collect non-empty buckets with averages, in bucket order (main.rs 230-236). -/
def candidatesOf (buckets : Fin 12 → HueBucket) : List Cand :=
  (List.finRange 12).filterMap fun i =>
    let b := buckets i
    if b.count ≠ 0 then
      some ⟨b.h_sum / b.count, b.s_sum / b.count, b.l_sum / b.count, b.count⟩
    else none

/-- The pixel-count-descending comparison of `candidates.sort_by` (main.rs 239). -/
def rankRel (a b : Cand) : Prop := b.count ≤ a.count

instance : DecidableRel rankRel := fun a b => inferInstanceAs (Decidable (b.count ≤ a.count))

instance : IsTotal Cand rankRel := ⟨fun a b => le_total b.count a.count⟩

instance : IsTrans Cand rankRel := ⟨fun _ _ _ h1 h2 => le_trans h2 h1⟩

/-- The hue-ascending comparison of the final sort (main.rs 263). -/
def hueRel (a b : Cand) : Prop := a.h ≤ b.h

instance : DecidableRel hueRel := fun a b => inferInstanceAs (Decidable (a.h ≤ b.h))

instance : IsTotal Cand hueRel := ⟨fun a b => le_total a.h b.h⟩

instance : IsTrans Cand hueRel := ⟨fun _ _ _ => le_trans⟩

/-- The six synthesized neutral grey swatches for featureless input
(main.rs 243-248): hue 0, saturation 0, lightness `0.2 + i * 0.12`, count 1. -/
def greyCandidates : List Cand :=
  (List.range 6).map fun i : ℕ => ⟨0, 0, 1/5 + (i : ℚ) * (3/25), 1⟩

/-- The duplicate pushed when the candidate list has length `len`
(main.rs 252-257): source bin `base[len % base.len()]`, lightness offset
`len * 0.08` clamped to `0.85`, count 1. -/
def dupCandidate (base : List Cand) (len : ℕ) : Cand :=
  let src := base.getD (len % base.length) ⟨0, 0, 0, 1⟩
  ⟨src.h, src.s, min (src.l + (len : ℚ) * (2/25)) (17/20), 1⟩

/-- The `while candidates.len() < 6` loop (main.rs 252-257), with explicit
fuel; the caller passes fuel 6, enough for the at most five pushes performed
when the base is non-empty. -/
def fillCandidates (base : List Cand) : ℕ → List Cand → List Cand
  | 0, cands => cands
  | fuel + 1, cands =>
    if cands.length < 6 then
      fillCandidates base fuel (cands ++ [dupCandidate base cands.length])
    else cands

/-- The fewer-than-6-bins edge case (main.rs 242-259): synthesize greys when
no bin is populated, otherwise cyclically duplicate the existing candidates
(`base` is the clone taken before the loop). -/
def completeSix (cands : List Cand) : List Cand :=
  if cands.length < 6 then
    if cands = [] then greyCandidates
    else fillCandidates cands 6 cands
  else cands

/-- The candidate pipeline of `extract_colors_from_image` after the pixel
loop (main.rs 230-263): rank by count descending (stable), complete to six,
truncate to six, sort by hue ascending (stable). -/
def extractCandidates (pixels : List (ℕ × ℕ × ℕ)) : List Cand :=
  let ranked := List.insertionSort rankRel (candidatesOf (fillBuckets pixels))
  List.insertionSort hueRel ((completeSix ranked).take 6)

/-- The `hue_to_rgb` closure of `hsl_to_rgb_f32` (main.rs 157-164). -/
def hue_to_rgb (p q t0 : ℚ) : ℚ :=
  let t1 := if t0 < 0 then t0 + 1 else t0
  let t := if 1 < t1 then t1 - 1 else t1
  if t < 1/6 then p + (q - p) * 6 * t
  else if t < 1/2 then q
  else if t < 2/3 then p + (q - p) * (2/3 - t) * 6
  else p

/-- Source `hsl_to_rgb_f32` (main.rs 151-169): HSL (h normalized to `[0,1]`) to RGB
floats in `[0,1]`. -/
def hsl_to_rgb_f32 (h s l : ℚ) : ℚ × ℚ × ℚ :=
  if s = 0 then (l, l, l)
  else
    let q := if l < 1/2 then l * (1 + s) else l + s - l * s
    let p := 2 * l - q
    (hue_to_rgb p q (h + 1/3), hue_to_rgb p q h, hue_to_rgb p q (h - 1/3))

/-- Packing the candidates into the `[f32; 24]` wheel (main.rs 266-273): the
array starts zeroed and candidate `i` writes `r, g, b, 1.0` at offset `4*i`;
the second argument is the number of remaining 4-float slots (6 at the top
level), so unwritten slots stay zero. -/
def packWheel : List Cand → ℕ → List ℚ
  | [], n => List.replicate (4 * n) 0
  | _ :: _, 0 => []
  | c :: cs, n + 1 =>
    let rgb := hsl_to_rgb_f32 (c.h / 360) c.s c.l
    rgb.1 :: rgb.2.1 :: rgb.2.2 :: 1 :: packWheel cs n

/-- The pure pipeline of `extract_colors_from_image` (main.rs 172-277) over
the retained pixels of the decoded, downscaled image. -/
def extract_colors_from_image (pixels : List (ℕ × ℕ × ℕ)) : List ℚ :=
  packWheel (extractCandidates pixels) 6

/-! ### Preferences and settings snapshots (main.rs lines 51-123, 2318-2328) -/

/-- Source `UserPreferences` (main.rs 51-68); the cached custom color wheel is the
24-float list. -/
structure UserPreferences where
  color_scheme : ℕ
  density : ℕ
  noise_strength : ℕ
  line_length : ℕ
  line_width : ℕ
  view_scale : ℕ
  brightness : ℕ
  fps : ℕ
  run_on_login : Bool
  custom_color_wheel : Option (List ℚ)
  custom_image_path : Option String
deriving DecidableEq

/-- Source `UserPreferences::default` (main.rs 70-86). -/
def defaultPreferences : UserPreferences :=
  ⟨0, 1, 1, 1, 1, 1, 1, 30, false, none, none⟩

/-- The renderer-facing fields that the program sets on the settings snapshot
(main.rs 2320-2327 and 2531-2538). -/
structure Settings where
  color_mode : ColorMode
  grid_spacing : ℕ
  noise_multiplier : ℚ
  line_length : ℚ
  line_width : ℚ
  view_scale : ℚ
  brightness_multiplier : ℚ
deriving DecidableEq

/-- Building a settings snapshot from the seven discrete option values
(shared shape of main.rs 2320-2327 and 2531-2538). -/
def settingsFromValues (colorScheme density noise lineLength lineWidth viewScale brightness : ℕ) :
    Settings :=
  { color_mode := scheme_to_color_mode colorScheme
  , grid_spacing := density_to_grid_spacing density
  , noise_multiplier := noise_strength_to_multiplier noise
  , line_length := line_length_to_value lineLength
  , line_width := line_width_to_value lineWidth
  , view_scale := view_scale_to_value viewScale
  , brightness_multiplier := brightness_to_multiplier brightness }

/-- The startup settings built from loaded preferences (main.rs 2320-2327). -/
def settingsFromPrefs (prefs : UserPreferences) : Settings :=
  settingsFromValues prefs.color_scheme prefs.density prefs.noise_strength
    prefs.line_length prefs.line_width prefs.view_scale prefs.brightness

/-! ### Shared atomics and the settings-changed poll (main.rs 31-38, 2520-2539) -/

/-- The seven discrete option atomics (main.rs 31-37). -/
structure OptionValues where
  colorScheme : ℕ
  density : ℕ
  noiseStrength : ℕ
  lineLength : ℕ
  lineWidth : ℕ
  viewScale : ℕ
  brightness : ℕ
deriving DecidableEq

/-- The cross-thread shared state: option atomics plus the
`SETTINGS_CHANGED` flag (main.rs 31-38). -/
structure SharedState where
  vals : OptionValues
  settingsChanged : Bool
deriving DecidableEq

/-- Names for the seven discrete option atomics. -/
inductive OptionField
  | colorScheme
  | density
  | noiseStrength
  | lineLength
  | lineWidth
  | viewScale
  | brightness
deriving DecidableEq

/-- Read one option atomic. -/
def getOption (v : OptionValues) : OptionField → ℕ
  | .colorScheme => v.colorScheme
  | .density => v.density
  | .noiseStrength => v.noiseStrength
  | .lineLength => v.lineLength
  | .lineWidth => v.lineWidth
  | .viewScale => v.viewScale
  | .brightness => v.brightness

/-- Store one option atomic. -/
def setOption (v : OptionValues) : OptionField → ℕ → OptionValues
  | .colorScheme, x => { v with colorScheme := x }
  | .density, x => { v with density := x }
  | .noiseStrength, x => { v with noiseStrength := x }
  | .lineLength, x => { v with lineLength := x }
  | .lineWidth, x => { v with lineWidth := x }
  | .viewScale, x => { v with viewScale := x }
  | .brightness, x => { v with brightness := x }

/-- A single control-thread write: a store to one discrete option atomic, or
a set of the `SETTINGS_CHANGED` flag (the `set_*` menu handlers issue a store
followed by a flag set). -/
inductive CtrlWrite
  | store (f : OptionField) (x : ℕ)
  | setFlag
deriving DecidableEq

/-- Apply one control-thread write to the shared state. -/
def applyWrite (st : SharedState) : CtrlWrite → SharedState
  | .store f x => { st with vals := setOption st.vals f x }
  | .setFlag => { st with settingsChanged := true }

/-- Apply a sequence of control-thread writes in order. -/
def applyWrites (st : SharedState) (ws : List CtrlWrite) : SharedState :=
  ws.foldl applyWrite st

/-- The value of the last store to option `f` in a write sequence, if any. -/
def lastWritten (f : OptionField) : List CtrlWrite → Option ℕ
  | [] => none
  | w :: ws =>
    match lastWritten f ws with
    | some x => some x
    | none =>
      match w with
      | .store g x => if g = f then some x else none
      | .setFlag => none

/-- The snapshot built by the render loop from the loaded atomics
(main.rs 2521-2538). -/
def settingsFromShared (v : OptionValues) : Settings :=
  settingsFromValues v.colorScheme v.density v.noiseStrength
    v.lineLength v.lineWidth v.viewScale v.brightness

/-- One render-loop poll of `SETTINGS_CHANGED` (main.rs 2520-2539):
`swap(false)`, and when the flag was set build a full snapshot from the
current atomic values. -/
def pollSettings (st : SharedState) : Option Settings × SharedState :=
  let cleared : SharedState := { st with settingsChanged := false }
  if st.settingsChanged then (some (settingsFromShared cleared.vals), cleared)
  else (none, cleared)

/-! ### Per-session settings application and resize (main.rs 2548-2570) -/

/-- The observable renderer state used by the settings-application step:
its current grid spacing (`flux.grid_spacing()`) and a counter of `resize`
invocations. -/
structure FluxState where
  grid_spacing : ℕ
  resize_count : ℕ
deriving DecidableEq

/-- The call `flux.update(..., settings)` overwrites the renderer's settings, in
particular its grid spacing (which is why main.rs 2550 reads the old value
before updating). -/
def fluxUpdate (f : FluxState) (s : Settings) : FluxState :=
  { f with grid_spacing := s.grid_spacing }

/-- The call `flux.resize(...)` rebuilds the internal grid; modelled as an invocation
counter. -/
def fluxResize (f : FluxState) : FluxState :=
  { f with resize_count := f.resize_count + 1 }

/-- The per-renderer body of the settings-changed branch (main.rs 2548-2570):
read whether the grid spacing differs before `update`, apply `update`, and
`resize` only when it differed.  Returns the new state and whether `resize`
was invoked. -/
def applySettingsToRenderer (f : FluxState) (new : Settings) : FluxState × Bool :=
  let densityChanged : Bool := f.grid_spacing != new.grid_spacing
  let f1 := fluxUpdate f new
  let f2 := if densityChanged then fluxResize f1 else f1
  (f2, densityChanged)

/-! ### Topology reconciliation (main.rs 2593-2661) -/

/-- Source `DisplayInfo` (main.rs 395-404). -/
structure DisplayInfo where
  origin_x : ℚ
  origin_y : ℚ
  width : ℚ
  height : ℚ
  pixels_wide : ℕ
  pixels_high : ℕ
deriving DecidableEq

/-- The per-display render session state relevant to reconciliation
(main.rs 2299-2307): the window's current physical size, the surface
configuration size, the renderer, and the stored display info. -/
structure DisplayRenderer where
  windowPhysW : ℕ
  windowPhysH : ℕ
  configW : ℕ
  configH : ℕ
  flux : FluxState
  display_info : DisplayInfo
deriving DecidableEq

/-- The body of the per-renderer topology update (main.rs 2599-2651): move
the window, reconfigure the surface to the window's physical size (clamped to
at least 1), resize the renderer, and store the new display info. -/
def reconcileOne (r : DisplayRenderer) (d : DisplayInfo) : DisplayRenderer :=
  { r with
      configW := max r.windowPhysW 1
    , configH := max r.windowPhysH 1
    , flux := fluxResize r.flux
    , display_info := d }

/-- The positional session-to-display loop (main.rs 2599-2652): renderer `i`
is updated with display `i` when it exists and left untouched otherwise; no
session is ever destroyed or created. -/
def reconcileSessions : List DisplayRenderer → List DisplayInfo → List DisplayRenderer
  | [], _ => []
  | r :: rs, [] => r :: reconcileSessions rs []
  | r :: rs, d :: ds => reconcileOne r d :: reconcileSessions rs ds

/-- The whole `SCREEN_CONFIG_CHANGED` branch (main.rs 2593-2661): reconcile
positionally and warn (log only) when the display count differs from the
session count. -/
def reconcileTopology (renderers : List DisplayRenderer) (displays : List DisplayInfo) :
    List DisplayRenderer × Bool :=
  (reconcileSessions renderers displays, displays.length != renderers.length)

/-! ### Startup preference loading in the menu-bar setup (main.rs 1396-1420,
1877-1901) -/

/-- The observable effect of the preference-loading prologue of
`setup_menu_bar`: the atomics stored, the custom wheel staged in the global
mutex, and any preferences written back during the load (the source performs
no `save_preferences` call on this path, so `savedPrefs` is `none`). -/
structure MenuBarLoadResult where
  atomics : OptionValues
  stagedWheel : Option (List ℚ)
  savedPrefs : Option UserPreferences
deriving DecidableEq

/-- The in-memory fallback (main.rs 1398-1403 and 1879-1884): scheme 4 with
no cached wheel falls back to 0. -/
def effective_scheme (prefs : UserPreferences) : ℕ :=
  if prefs.color_scheme = 4 ∧ prefs.custom_color_wheel = none then 0
  else prefs.color_scheme

/-- The preference-loading prologue of `setup_menu_bar` (main.rs 1396-1420 on
macOS, identically 1877-1901 on Windows). -/
def setupMenuBarLoad (prefs : UserPreferences) : MenuBarLoadResult :=
  { atomics :=
      ⟨effective_scheme prefs, prefs.density, prefs.noise_strength,
       prefs.line_length, prefs.line_width, prefs.view_scale, prefs.brightness⟩
  , stagedWheel := if prefs.color_scheme = 4 then prefs.custom_color_wheel else none
  , savedPrefs := none }

/-! ### Command-line arguments and frame pacing (main.rs 332-342, 2504-2506,
2838-2840, 2977-2979) -/

/-- Source `Args` (main.rs 332-342). -/
structure Args where
  windowed : Bool
  fps : ℕ
deriving DecidableEq

/-- The clap default of the `--fps` flag (main.rs 340). -/
def defaultArgsFps : ℕ := 60

/-- The startup of `run_wallpaper_multi` as far as runtime parameters are
concerned (main.rs 2319-2328 and 2505): initial settings from preferences,
frame interval `1 / args.fps` seconds from the command line only. -/
def runWallpaperMultiStartup (args : Args) (prefs : UserPreferences) : Settings × ℚ :=
  (settingsFromPrefs prefs, 1 / (args.fps : ℚ))

/-- Frame interval of `run_wallpaper` (main.rs 2839). -/
def runWallpaperFrameTime (args : Args) : ℚ := 1 / (args.fps : ℚ)

/-- Frame interval of `run_normal` (main.rs 2978). -/
def runNormalFrameTime (args : Args) : ℚ := 1 / (args.fps : ℚ)

/-! ## Theorems -/

/-! ### Shared-state lemmas -/

theorem applyWrite_flag_mono (st : SharedState) (w : CtrlWrite)
    (h : st.settingsChanged = true) : (applyWrite st w).settingsChanged = true := by
  cases w <;> simp [applyWrite, h]

theorem applyWrites_flag_mono (ws : List CtrlWrite) :
    ∀ st : SharedState, st.settingsChanged = true →
      (applyWrites st ws).settingsChanged = true := by
  induction ws with
  | nil => intro st h; simpa [applyWrites] using h
  | cons w ws ih =>
    intro st h
    exact ih (applyWrite st w) (applyWrite_flag_mono st w h)

theorem applyWrites_flag_of_mem (ws : List CtrlWrite) (hmem : CtrlWrite.setFlag ∈ ws) :
    ∀ st : SharedState, (applyWrites st ws).settingsChanged = true := by
  induction ws with
  | nil => cases hmem
  | cons w ws ih =>
    intro st
    rcases List.mem_cons.mp hmem with h | h
    · subst h
      exact applyWrites_flag_mono ws (applyWrite st CtrlWrite.setFlag) rfl
    · exact ih h (applyWrite st w)

theorem getOption_setOption (v : OptionValues) (g f : OptionField) (x : ℕ) :
    getOption (setOption v g x) f = if g = f then x else getOption v f := by
  cases g <;> cases f <;> simp [getOption, setOption]

theorem getOption_applyWrites (ws : List CtrlWrite) :
    ∀ (st : SharedState) (f : OptionField),
      getOption (applyWrites st ws).vals f = (lastWritten f ws).getD (getOption st.vals f) := by
  induction ws with
  | nil => intro st f; simp [applyWrites, lastWritten]
  | cons w ws ih =>
    intro st f
    have step : applyWrites st (w :: ws) = applyWrites (applyWrite st w) ws := rfl
    rw [step, ih]
    rcases hlast : lastWritten f ws with _ | x
    · cases w with
      | setFlag => simp [lastWritten, hlast, applyWrite]
      | store g x =>
        simp only [lastWritten, hlast, applyWrite, getOption_setOption]
        by_cases hg : g = f <;> simp [hg]
    · simp [lastWritten, hlast]

/-- C4: for any sequence of control-thread writes between two render-loop
polls that sets the settings-changed flag at least once, the next poll
performs exactly one settings application (the immediately following poll
applies none), the applied snapshot is built from the final atomic values,
each of which is the last-written value of that option (or the prior value
when it was never written), and the poll clears the flag. -/
theorem settings_coalescing_c4 (st : SharedState) (ws : List CtrlWrite)
    (hflag : CtrlWrite.setFlag ∈ ws) :
    (pollSettings (applyWrites st ws)).1
        = some (settingsFromShared (applyWrites st ws).vals) ∧
    (pollSettings (applyWrites st ws)).2.settingsChanged = false ∧
    (pollSettings (pollSettings (applyWrites st ws)).2).1 = none ∧
    ∀ f : OptionField,
      getOption (applyWrites st ws).vals f = (lastWritten f ws).getD (getOption st.vals f) := by
  have hf := applyWrites_flag_of_mem ws hflag st
  refine ⟨?_, ?_, ?_, fun f => getOption_applyWrites ws st f⟩
  · simp [pollSettings, hf]
  · simp [pollSettings, hf]
  · simp [pollSettings, hf]

theorem settings_coalescing_c4_witness :
    CtrlWrite.setFlag ∈
        [CtrlWrite.store OptionField.density 2, CtrlWrite.setFlag,
         CtrlWrite.store OptionField.density 0, CtrlWrite.setFlag] ∧
    (pollSettings (applyWrites ⟨⟨0, 1, 1, 1, 1, 1, 1⟩, false⟩
        [CtrlWrite.store OptionField.density 2, CtrlWrite.setFlag,
         CtrlWrite.store OptionField.density 0, CtrlWrite.setFlag])).1
      = some (settingsFromShared (applyWrites ⟨⟨0, 1, 1, 1, 1, 1, 1⟩, false⟩
        [CtrlWrite.store OptionField.density 2, CtrlWrite.setFlag,
         CtrlWrite.store OptionField.density 0, CtrlWrite.setFlag]).vals) :=
  ⟨by decide,
   (settings_coalescing_c4 ⟨⟨0, 1, 1, 1, 1, 1, 1⟩, false⟩
      [CtrlWrite.store OptionField.density 2, CtrlWrite.setFlag,
       CtrlWrite.store OptionField.density 0, CtrlWrite.setFlag] (by decide)).1⟩

/-- C3: in the settings-changed branch of the wallpaper render loop, the
renderer's `resize` is invoked exactly when the session's current grid
spacing differs from the one in the new snapshot; a new density whose grid
spacing equals the current one never triggers a resize. -/
theorem density_resize_c3 (f : FluxState) (s : Settings) :
    ((applySettingsToRenderer f s).2 = true ↔ f.grid_spacing ≠ s.grid_spacing) ∧
    ((applySettingsToRenderer f s).1.resize_count
        = f.resize_count + (if f.grid_spacing ≠ s.grid_spacing then 1 else 0)) ∧
    (∀ vals : OptionValues, density_to_grid_spacing vals.density = f.grid_spacing →
      (applySettingsToRenderer f (settingsFromShared vals)).1.resize_count = f.resize_count) := by
  refine ⟨?_, ?_, ?_⟩
  · simp [applySettingsToRenderer, bne_iff_ne]
  · by_cases h : f.grid_spacing = s.grid_spacing <;>
      simp [applySettingsToRenderer, fluxUpdate, fluxResize, h]
  · intro vals hv
    have hgs : (settingsFromShared vals).grid_spacing = f.grid_spacing := hv
    simp [applySettingsToRenderer, fluxUpdate, fluxResize, hgs]

theorem density_resize_c3_witness :
    density_to_grid_spacing 1 = 15 ∧
    (applySettingsToRenderer ⟨15, 0⟩ (settingsFromShared ⟨0, 1, 1, 1, 1, 1, 1⟩)).1.resize_count = 0 :=
  ⟨rfl,
   (density_resize_c3 ⟨15, 0⟩ (settingsFromShared ⟨0, 1, 1, 1, 1, 1, 1⟩)).2.2
     ⟨0, 1, 1, 1, 1, 1, 1⟩ rfl⟩

/-- C5: at startup, preferences with color scheme 4 (Custom Image) and no
cached custom color wheel make the menu-bar setup store effective scheme 0
(Original) into the in-memory atomics, while no corrected preferences are
written back (the load path performs no preference save). -/
theorem custom_scheme_fallback_c5 (prefs : UserPreferences)
    (h4 : prefs.color_scheme = 4) (hw : prefs.custom_color_wheel = none) :
    (setupMenuBarLoad prefs).atomics.colorScheme = 0 ∧
    (setupMenuBarLoad prefs).savedPrefs = none ∧
    effective_scheme prefs = 0 := by
  refine ⟨?_, rfl, ?_⟩ <;> simp [setupMenuBarLoad, effective_scheme, h4, hw]

theorem custom_scheme_fallback_c5_witness :
    ({ defaultPreferences with color_scheme := 4 } : UserPreferences).color_scheme = 4 ∧
    (setupMenuBarLoad { defaultPreferences with color_scheme := 4 }).atomics.colorScheme = 0 :=
  ⟨rfl, (custom_scheme_fallback_c5 { defaultPreferences with color_scheme := 4 } rfl rfl).1⟩

/-- C7: density index 1 ("Normal") maps to grid spacing 15 in the profile
under src/ and to grid spacing 22 in the second configuration profile
(modelled from the spec); the two profiles disagree, so the mapping is
profile-dependent rather than a single table. -/
theorem density_profiles_c7 :
    density_to_grid_spacing 1 = 15 ∧
    profile2_normal_grid_spacing = 22 ∧
    density_to_grid_spacing 1 ≠ profile2_normal_grid_spacing := by
  decide

/-- C9: every discrete-option-to-parameter mapping is total: any input value
yields one of the documented parameters, and every out-of-range value yields
the documented default. -/
theorem mapping_totality_c9 (n : ℕ) :
    density_to_grid_spacing n ∈ [25, 15, 10] ∧
    noise_strength_to_multiplier n ∈ [3/20, 9/20, 3/4, 1] ∧
    line_length_to_value n ∈ [63, 142, 220, 315] ∧
    line_width_to_value n ∈ [4, 9, 16] ∧
    view_scale_to_value n ∈ [1, 8/5, 11/5] ∧
    brightness_to_multiplier n ∈ [1/2, 1, 2, 7/2] ∧
    (3 ≤ n → density_to_grid_spacing n = 15) ∧
    (4 ≤ n → noise_strength_to_multiplier n = 9/20) ∧
    (4 ≤ n → line_length_to_value n = 142) ∧
    (3 ≤ n → line_width_to_value n = 9) ∧
    (3 ≤ n → view_scale_to_value n = 8/5) ∧
    (4 ≤ n → brightness_to_multiplier n = 1) := by
  rcases n with _ | _ | _ | _ | n
  · refine ⟨?_, ?_, ?_, ?_, ?_, ?_, ?_, ?_, ?_, ?_, ?_, ?_⟩ <;>
      norm_num [density_to_grid_spacing, noise_strength_to_multiplier, line_length_to_value,
        line_width_to_value, view_scale_to_value, brightness_to_multiplier, List.mem_cons]
  · refine ⟨?_, ?_, ?_, ?_, ?_, ?_, ?_, ?_, ?_, ?_, ?_, ?_⟩ <;>
      norm_num [density_to_grid_spacing, noise_strength_to_multiplier, line_length_to_value,
        line_width_to_value, view_scale_to_value, brightness_to_multiplier, List.mem_cons]
  · refine ⟨?_, ?_, ?_, ?_, ?_, ?_, ?_, ?_, ?_, ?_, ?_, ?_⟩ <;>
      norm_num [density_to_grid_spacing, noise_strength_to_multiplier, line_length_to_value,
        line_width_to_value, view_scale_to_value, brightness_to_multiplier, List.mem_cons]
  · refine ⟨?_, ?_, ?_, ?_, ?_, ?_, ?_, ?_, ?_, ?_, ?_, ?_⟩ <;>
      norm_num [density_to_grid_spacing, noise_strength_to_multiplier, line_length_to_value,
        line_width_to_value, view_scale_to_value, brightness_to_multiplier, List.mem_cons]
  · refine ⟨?_, ?_, ?_, ?_, ?_, ?_, fun _ => rfl, fun _ => rfl, fun _ => rfl,
      fun _ => rfl, fun _ => rfl, fun _ => rfl⟩ <;>
      norm_num [show density_to_grid_spacing (n + 4) = 15 from rfl,
        show noise_strength_to_multiplier (n + 4) = 9/20 from rfl,
        show line_length_to_value (n + 4) = 142 from rfl,
        show line_width_to_value (n + 4) = 9 from rfl,
        show view_scale_to_value (n + 4) = 8/5 from rfl,
        show brightness_to_multiplier (n + 4) = 1 from rfl, List.mem_cons]

theorem mapping_totality_c9_witness :
    (3 ≤ 99 ∧ density_to_grid_spacing 99 = 15) ∧
    (4 ≤ 99 ∧ noise_strength_to_multiplier 99 = 9/20) :=
  ⟨⟨by decide, (mapping_totality_c9 99).2.2.2.2.2.2.1 (by decide)⟩,
   ⟨by decide, (mapping_totality_c9 99).2.2.2.2.2.2.2.1 (by decide)⟩⟩

/-- C10: the frame interval of every run mode is `1 / args.fps` seconds,
derived solely from the command-line fps flag whose default is 60; the
`fps` field stored in the preferences file influences neither frame pacing
nor the startup settings snapshot nor the menu-bar preference load. -/
theorem fps_cli_only_c10 (args : Args) (prefs : UserPreferences) (f : ℕ) :
    runWallpaperMultiStartup args { prefs with fps := f } = runWallpaperMultiStartup args prefs ∧
    (runWallpaperMultiStartup args prefs).2 = 1 / (args.fps : ℚ) ∧
    runWallpaperFrameTime args = 1 / (args.fps : ℚ) ∧
    runNormalFrameTime args = 1 / (args.fps : ℚ) ∧
    setupMenuBarLoad { prefs with fps := f } = setupMenuBarLoad prefs ∧
    settingsFromPrefs { prefs with fps := f } = settingsFromPrefs prefs ∧
    defaultArgsFps = 60 :=
  ⟨rfl, rfl, rfl, rfl, rfl, rfl, rfl⟩

/-! ### Topology reconciliation (C8) -/

theorem reconcileSessions_length :
    ∀ (rs : List DisplayRenderer) (ds : List DisplayInfo),
      (reconcileSessions rs ds).length = rs.length := by
  intro rs
  induction rs with
  | nil => intro ds; cases ds <;> rfl
  | cons r rs ih =>
    intro ds
    cases ds with
    | nil => simp [reconcileSessions, ih []]
    | cons d ds => simp [reconcileSessions, ih ds]

theorem reconcileSessions_get_both :
    ∀ (rs : List DisplayRenderer) (ds : List DisplayInfo) (i : ℕ) (r : DisplayRenderer)
      (d : DisplayInfo), rs[i]? = some r → ds[i]? = some d →
      (reconcileSessions rs ds)[i]? = some (reconcileOne r d) := by
  intro rs
  induction rs with
  | nil => intro ds i r d hr _; simp at hr
  | cons r0 rs ih =>
    intro ds i r d hr hd
    cases ds with
    | nil => simp at hd
    | cons d0 ds =>
      cases i with
      | zero =>
        simp only [List.getElem?_cons_zero, Option.some.injEq] at hr hd
        subst hr; subst hd
        simp [reconcileSessions]
      | succ i =>
        simp only [List.getElem?_cons_succ] at hr hd
        simpa [reconcileSessions] using ih ds i r d hr hd

theorem reconcileSessions_get_left :
    ∀ (rs : List DisplayRenderer) (ds : List DisplayInfo) (i : ℕ) (r : DisplayRenderer),
      rs[i]? = some r → ds[i]? = none →
      (reconcileSessions rs ds)[i]? = some r := by
  intro rs
  induction rs with
  | nil => intro ds i r hr _; simp at hr
  | cons r0 rs ih =>
    intro ds i r hr hd
    cases ds with
    | nil =>
      cases i with
      | zero =>
        simp only [List.getElem?_cons_zero, Option.some.injEq] at hr
        subst hr; simp [reconcileSessions]
      | succ i =>
        simp only [List.getElem?_cons_succ] at hr
        simpa [reconcileSessions] using ih [] i r hr (by simp)
    | cons d0 ds =>
      cases i with
      | zero => simp at hd
      | succ i =>
        simp only [List.getElem?_cons_succ] at hr hd
        simpa [reconcileSessions] using ih ds i r hr hd

/-- C8 counterexample: with two live sessions and a re-enumeration yielding
one display, the loop keeps both sessions (length 2, not 1) — surplus
sessions are not destroyed. -/
theorem topology_c8_counterexample :
    (reconcileTopology
        [⟨1920, 1080, 1920, 1080, ⟨15, 0⟩, ⟨0, 0, 1920, 1080, 1920, 1080⟩⟩,
         ⟨1920, 1080, 1920, 1080, ⟨15, 0⟩, ⟨1920, 0, 1920, 1080, 1920, 1080⟩⟩]
        [⟨0, 0, 1920, 1080, 1920, 1080⟩]).1.length = 2 ∧
    ¬ (reconcileTopology
        [⟨1920, 1080, 1920, 1080, ⟨15, 0⟩, ⟨0, 0, 1920, 1080, 1920, 1080⟩⟩,
         ⟨1920, 1080, 1920, 1080, ⟨15, 0⟩, ⟨1920, 0, 1920, 1080, 1920, 1080⟩⟩]
        [⟨0, 0, 1920, 1080, 1920, 1080⟩]).1.length = 1 :=
  ⟨rfl, by decide⟩

/-- C8 amended: on topology re-enumeration no session is ever destroyed or
created — the session list keeps its length; each session with a matching
display (by position) is updated in place, sessions beyond the display count
are left untouched, and a count mismatch only raises the logged warning,
which fires exactly when the counts differ. -/
theorem topology_c8_amended (renderers : List DisplayRenderer) (displays : List DisplayInfo) :
    (reconcileTopology renderers displays).1.length = renderers.length ∧
    ((reconcileTopology renderers displays).2 = true ↔ displays.length ≠ renderers.length) ∧
    (∀ (i : ℕ) (r : DisplayRenderer) (d : DisplayInfo),
      renderers[i]? = some r → displays[i]? = some d →
      (reconcileTopology renderers displays).1[i]? = some (reconcileOne r d)) ∧
    (∀ (i : ℕ) (r : DisplayRenderer),
      renderers[i]? = some r → displays[i]? = none →
      (reconcileTopology renderers displays).1[i]? = some r) := by
  refine ⟨reconcileSessions_length renderers displays, ?_,
    fun i r d hr hd => reconcileSessions_get_both renderers displays i r d hr hd,
    fun i r hr hd => reconcileSessions_get_left renderers displays i r hr hd⟩
  simp [reconcileTopology, bne_iff_ne]

theorem topology_c8_amended_witness :
    ([(⟨1920, 1080, 1920, 1080, ⟨15, 0⟩, ⟨0, 0, 1920, 1080, 1920, 1080⟩⟩ : DisplayRenderer)][0]?
        = some ⟨1920, 1080, 1920, 1080, ⟨15, 0⟩, ⟨0, 0, 1920, 1080, 1920, 1080⟩⟩) ∧
    (reconcileTopology
        [⟨1920, 1080, 1920, 1080, ⟨15, 0⟩, ⟨0, 0, 1920, 1080, 1920, 1080⟩⟩]
        [⟨0, 0, 2560, 1440, 2560, 1440⟩]).1[0]?
      = some (reconcileOne ⟨1920, 1080, 1920, 1080, ⟨15, 0⟩, ⟨0, 0, 1920, 1080, 1920, 1080⟩⟩
          ⟨0, 0, 2560, 1440, 2560, 1440⟩) :=
  ⟨rfl,
   (topology_c8_amended
      [⟨1920, 1080, 1920, 1080, ⟨15, 0⟩, ⟨0, 0, 1920, 1080, 1920, 1080⟩⟩]
      [⟨0, 0, 2560, 1440, 2560, 1440⟩]).2.2.1 0
      ⟨1920, 1080, 1920, 1080, ⟨15, 0⟩, ⟨0, 0, 1920, 1080, 1920, 1080⟩⟩
      ⟨0, 0, 2560, 1440, 2560, 1440⟩ rfl rfl⟩

/-! ### Palette extraction lemmas -/

theorem fillCandidates_le_length (base : List Cand) :
    ∀ (fuel : ℕ) (cands : List Cand), 6 ≤ cands.length + fuel →
      6 ≤ (fillCandidates base fuel cands).length := by
  intro fuel
  induction fuel with
  | zero =>
    intro cands h
    simpa [fillCandidates] using h
  | succ fuel ih =>
    intro cands h
    by_cases h6 : cands.length < 6
    · have step : fillCandidates base (fuel + 1) cands
          = fillCandidates base fuel (cands ++ [dupCandidate base cands.length]) := by
        simp [fillCandidates, h6]
      rw [step]
      apply ih
      simp only [List.length_append, List.length_cons, List.length_nil]
      omega
    · have step : fillCandidates base (fuel + 1) cands = cands := by
        simp [fillCandidates, h6]
      rw [step]
      omega

theorem completeSix_min_length (cs : List Cand) : 6 ≤ (completeSix cs).length := by
  unfold completeSix
  by_cases h6 : cs.length < 6
  · rw [if_pos h6]
    by_cases he : cs = []
    · rw [if_pos he]
      simp only [greyCandidates, List.length_map, List.length_range]
      omega
    · rw [if_neg he]
      exact fillCandidates_le_length cs 6 cs (by omega)
  · rw [if_neg h6]
    omega

theorem extractCandidates_length (pixels : List (ℕ × ℕ × ℕ)) :
    (extractCandidates pixels).length = 6 := by
  unfold extractCandidates
  rw [List.length_insertionSort, List.length_take]
  have h := completeSix_min_length (List.insertionSort rankRel (candidatesOf (fillBuckets pixels)))
  omega

theorem packWheel_length :
    ∀ (cands : List Cand) (n : ℕ), cands.length ≤ n → (packWheel cands n).length = 4 * n := by
  intro cands
  induction cands with
  | nil => intro n _; simp [packWheel]
  | cons c cs ih =>
    intro n h
    cases n with
    | zero => simp at h
    | succ n =>
      have hrec := ih n (by simpa using h)
      simp only [packWheel, List.length_cons, hrec]
      omega

theorem packWheel_alpha :
    ∀ (cands : List Cand) (n i : ℕ), i < cands.length → i < n →
      (packWheel cands n).getD (4 * i + 3) 0 = 1 := by
  intro cands
  induction cands with
  | nil => intro n i h _; simp at h
  | cons c cs ih =>
    intro n i h1 h2
    cases n with
    | zero => omega
    | succ n =>
      cases i with
      | zero => simp [packWheel]
      | succ i =>
        have e : 4 * (i + 1) + 3 = 4 * i + 3 + 1 + 1 + 1 + 1 := by omega
        rw [e]
        simp only [packWheel, List.getD_cons_succ]
        exact ih n i (by simpa using h1) (by omega)

/-- C1: for every decoded image, palette extraction yields exactly 6
candidates, sorted by ascending hue, and a wheel of exactly 24 floats whose
alpha components (offsets 3, 7, 11, 15, 19, 23) are all 1. -/
theorem palette_wheel_c1 (pixels : List (ℕ × ℕ × ℕ)) :
    (extractCandidates pixels).length = 6 ∧
    List.Sorted hueRel (extractCandidates pixels) ∧
    (extract_colors_from_image pixels).length = 24 ∧
    (extract_colors_from_image pixels).getD 3 0 = 1 ∧
    (extract_colors_from_image pixels).getD 7 0 = 1 ∧
    (extract_colors_from_image pixels).getD 11 0 = 1 ∧
    (extract_colors_from_image pixels).getD 15 0 = 1 ∧
    (extract_colors_from_image pixels).getD 19 0 = 1 ∧
    (extract_colors_from_image pixels).getD 23 0 = 1 := by
  have hlen := extractCandidates_length pixels
  refine ⟨hlen, List.sorted_insertionSort hueRel _, ?_, ?_, ?_, ?_, ?_, ?_, ?_⟩
  · have h := packWheel_length (extractCandidates pixels) 6 (by omega)
    simpa [extract_colors_from_image] using h
  · have h := packWheel_alpha (extractCandidates pixels) 6 0 (by omega) (by omega)
    simpa [extract_colors_from_image] using h
  · have h := packWheel_alpha (extractCandidates pixels) 6 1 (by omega) (by omega)
    simpa [extract_colors_from_image] using h
  · have h := packWheel_alpha (extractCandidates pixels) 6 2 (by omega) (by omega)
    simpa [extract_colors_from_image] using h
  · have h := packWheel_alpha (extractCandidates pixels) 6 3 (by omega) (by omega)
    simpa [extract_colors_from_image] using h
  · have h := packWheel_alpha (extractCandidates pixels) 6 4 (by omega) (by omega)
    simpa [extract_colors_from_image] using h
  · have h := packWheel_alpha (extractCandidates pixels) 6 5 (by omega) (by omega)
    simpa [extract_colors_from_image] using h

theorem pixelHSL_eq_none (p : ℕ × ℕ × ℕ) (h : pixelFiltered p) : pixelHSL p = none := by
  simp only [pixelFiltered] at h
  simp only [pixelHSL]
  rw [if_pos h]

theorem addPixel_of_filtered (bk : Fin 12 → HueBucket) (p : ℕ × ℕ × ℕ)
    (h : pixelFiltered p) : addPixel bk p = bk := by
  unfold addPixel
  rw [pixelHSL_eq_none p h]

theorem fillBuckets_of_all_filtered :
    ∀ (pixels : List (ℕ × ℕ × ℕ)), (∀ p ∈ pixels, pixelFiltered p) →
      fillBuckets pixels = emptyBuckets := by
  intro pixels
  induction pixels with
  | nil => intro _; rfl
  | cons p ps ih =>
    intro h
    have h1 : addPixel emptyBuckets p = emptyBuckets :=
      addPixel_of_filtered emptyBuckets p (h p (List.mem_cons_self p ps))
    show (p :: ps).foldl addPixel emptyBuckets = emptyBuckets
    rw [List.foldl_cons, h1]
    exact ih fun q hq => h q (List.mem_cons_of_mem p hq)

/-- C2: when every pixel fails the lightness/saturation filter, extraction
synthesizes the six neutral grey swatches: zero saturation, equal RGB
components, lightness 0.2, 0.32, 0.44, 0.56, 0.68, 0.8 strictly increasing. -/
theorem grey_fallback_c2 (pixels : List (ℕ × ℕ × ℕ))
    (h : ∀ p ∈ pixels, pixelFiltered p) :
    extractCandidates pixels =
      [⟨0, 0, 1/5, 1⟩, ⟨0, 0, 8/25, 1⟩, ⟨0, 0, 11/25, 1⟩,
       ⟨0, 0, 14/25, 1⟩, ⟨0, 0, 17/25, 1⟩, ⟨0, 0, 4/5, 1⟩] ∧
    extract_colors_from_image pixels =
      [1/5, 1/5, 1/5, 1, 8/25, 8/25, 8/25, 1, 11/25, 11/25, 11/25, 1,
       14/25, 14/25, 14/25, 1, 17/25, 17/25, 17/25, 1, 4/5, 4/5, 4/5, 1] ∧
    List.Chain' (fun a b : Cand => a.l < b.l) (extractCandidates pixels) ∧
    ∀ c ∈ extractCandidates pixels, c.s = 0 := by
  have hb := fillBuckets_of_all_filtered pixels h
  have hgrey : extractCandidates pixels = greyCandidates := by
    unfold extractCandidates
    rw [hb]
    rfl
  have hexp : greyCandidates =
      [⟨0, 0, 1/5, 1⟩, ⟨0, 0, 8/25, 1⟩, ⟨0, 0, 11/25, 1⟩,
       ⟨0, 0, 14/25, 1⟩, ⟨0, 0, 17/25, 1⟩, ⟨0, 0, 4/5, 1⟩] := by
    norm_num [greyCandidates, List.range_succ, Cand.mk.injEq]
  have hcand := hgrey.trans hexp
  refine ⟨hcand, ?_, ?_, ?_⟩
  · unfold extract_colors_from_image
    rw [hcand]
    norm_num [packWheel, hsl_to_rgb_f32]
  · rw [hcand]
    norm_num [List.chain'_cons]
  · rw [hcand]
    intro c hc
    simp only [List.mem_cons, List.not_mem_nil, or_false] at hc
    rcases hc with rfl | rfl | rfl | rfl | rfl | rfl <;> rfl

theorem grey_fallback_c2_witness :
    (∀ p ∈ [((0 : ℕ), (0 : ℕ), (0 : ℕ))], pixelFiltered p) ∧
    extractCandidates [((0 : ℕ), (0 : ℕ), (0 : ℕ))] =
      [⟨0, 0, 1/5, 1⟩, ⟨0, 0, 8/25, 1⟩, ⟨0, 0, 11/25, 1⟩,
       ⟨0, 0, 14/25, 1⟩, ⟨0, 0, 17/25, 1⟩, ⟨0, 0, 4/5, 1⟩] :=
  ⟨by norm_num [pixelFiltered],
   (grey_fallback_c2 [((0 : ℕ), (0 : ℕ), (0 : ℕ))] (by norm_num [pixelFiltered])).1⟩

theorem fillCandidates_closed (base : List Cand) :
    ∀ (fuel : ℕ) (cands : List Cand), 6 ≤ cands.length + fuel →
      fillCandidates base fuel cands =
        cands ++ (List.range' cands.length (6 - cands.length)).map (dupCandidate base) := by
  intro fuel
  induction fuel with
  | zero =>
    intro cands h
    have h6 : 6 - cands.length = 0 := by omega
    simp [fillCandidates, h6]
  | succ fuel ih =>
    intro cands h
    by_cases h6 : cands.length < 6
    · have step : fillCandidates base (fuel + 1) cands
          = fillCandidates base fuel (cands ++ [dupCandidate base cands.length]) := by
        simp [fillCandidates, h6]
      rw [step, ih (cands ++ [dupCandidate base cands.length])
        (by simp only [List.length_append, List.length_cons, List.length_nil]; omega)]
      have hl : (cands ++ [dupCandidate base cands.length]).length = cands.length + 1 := by
        simp
      rw [hl]
      have hr : 6 - cands.length = 6 - (cands.length + 1) + 1 := by omega
      rw [hr, List.range'_succ]
      simp [List.append_assoc]
    · have step : fillCandidates base (fuel + 1) cands = cands := by
        simp [fillCandidates, h6]
      have h6' : 6 - cands.length = 0 := by omega
      simp [step, h6']

theorem completeSix_of_small (cands : List Cand) (hne : cands ≠ []) (h6 : cands.length < 6) :
    completeSix cands =
      cands ++ (List.range' cands.length (6 - cands.length)).map (dupCandidate cands) := by
  unfold completeSix
  rw [if_pos h6, if_neg hne]
  exact fillCandidates_closed cands 6 cands (by omega)

/-- C6: with 1 to 5 populated bins the candidate list is completed to exactly
6 entries by cyclic duplication: entries below the original length are kept,
and entry `j` beyond it is `dupCandidate cands j` — the bin `cands[j % len]`
with its hue and saturation and with lightness `l + 0.08 * j` clamped to at
most 0.85. -/
theorem cyclic_duplication_c6 (cands : List Cand)
    (h1 : 1 ≤ cands.length) (h5 : cands.length ≤ 5) :
    (completeSix cands).length = 6 ∧
    (∀ j, j < cands.length → (completeSix cands)[j]? = cands[j]?) ∧
    (∀ j, cands.length ≤ j → j < 6 →
      (completeSix cands)[j]? = some (dupCandidate cands j)) := by
  have hne : cands ≠ [] := by
    intro e
    rw [e] at h1
    simp at h1
  have hc := completeSix_of_small cands hne (by omega)
  refine ⟨?_, ?_, ?_⟩
  · rw [hc]
    simp only [List.length_append, List.length_map, List.length_range']
    omega
  · intro j hj
    rw [hc, List.getElem?_append_left hj]
  · intro j hj1 hj2
    rw [hc, List.getElem?_append_right (by simpa using hj1), List.getElem?_map,
      List.getElem?_range' _ _ (by omega : j - cands.length < 6 - cands.length)]
    have harg : cands.length + 1 * (j - cands.length) = j := by omega
    rw [harg]
    rfl

theorem cyclic_duplication_c6_witness :
    (1 ≤ ([⟨120, 1/2, 3/10, 7⟩] : List Cand).length ∧
      ([⟨120, 1/2, 3/10, 7⟩] : List Cand).length ≤ 5) ∧
    (completeSix [⟨120, 1/2, 3/10, 7⟩]).length = 6 :=
  ⟨⟨by simp, by simp⟩,
   (cyclic_duplication_c6 [⟨120, 1/2, 3/10, 7⟩] (by simp) (by simp)).1⟩

end Driftpaper
